import Mathlib

/-!
Verification of the Bulgaria freelance tax estimator
(`bulgaria-freelance-taxes.py`).

The script computes, for a given gross monthly income, the net income of a
freelancer operating either through a company (dividend extraction) or as a
self-employed individual, and plots the effective burden fraction
`1 - net/gross` over a sampled range of gross incomes.

We embed the arithmetic over `ℚ` (the Python source computes with floats on
decimal constants; all the specified relations are exact identities of the
underlying real-number formulas, which `ℚ` represents exactly).  The
module-level CLI arguments `--socsec-base-min`, `--socsec-base-max` and
`--citizen` become an explicit `Args` record; every `let`-bound intermediate
of the source becomes a named definition so that the spec's statements about
intermediates can be expressed.
-/

/-- CLI arguments the tax model reads (module-global `args` in the source). -/
structure Args where
  socsec_base_min : ℚ
  socsec_base_max : ℚ
  citizen : Bool
deriving DecidableEq, Repr

/-- `SOCIAL_SECURITY_FACTOR_MAIN = 0.148 + 0.05` (ДОО + ДЗПО). -/
def SOCIAL_SECURITY_FACTOR_MAIN : ℚ := 0.148 + 0.05

/-- `SOCIAL_SECURITY_FACTOR_HEALTH = 0.08` (НЗОК, citizens/residents only). -/
def SOCIAL_SECURITY_FACTOR_HEALTH : ℚ := 0.08

/-- `INCOME_TAX_FACTOR = 0.10`. -/
def INCOME_TAX_FACTOR : ℚ := 0.10

/-- `DIVIDEND_TAX_FACTOR = 0.05`. -/
def DIVIDEND_TAX_FACTOR : ℚ := 0.05

/-- `RECOGNIZED_EXPENSES_INDIVIDUAL = 0.25`. -/
def RECOGNIZED_EXPENSES_INDIVIDUAL : ℚ := 0.25

/-- `FIXED_EXPENSES_INDIVIDUAL = 150 + 5`. -/
def FIXED_EXPENSES_INDIVIDUAL : ℚ := 150 + 5

/-- `FIXED_EXPENSES_COMPANY = 150 + 15`. -/
def FIXED_EXPENSES_COMPANY : ℚ := 150 + 15

/-- `soc_sec_factor`: total social-security factor, depending on `--citizen`. -/
def soc_sec_factor (args : Args) : ℚ :=
  if args.citizen then SOCIAL_SECURITY_FACTOR_MAIN + SOCIAL_SECURITY_FACTOR_HEALTH
  else SOCIAL_SECURITY_FACTOR_MAIN

/-- `soc_sec` local of `get_net_company`: the company path always uses the
minimum social-security base. -/
def company_soc_sec (args : Args) : ℚ :=
  args.socsec_base_min * soc_sec_factor args

/-- `income_tax_base` local of `get_net_company`. -/
def company_income_tax_base (args : Args) (gross : ℚ) : ℚ :=
  gross - FIXED_EXPENSES_COMPANY - company_soc_sec args

/-- `income_tax` local of `get_net_company`. -/
def company_income_tax (args : Args) (gross : ℚ) : ℚ :=
  company_income_tax_base args gross * INCOME_TAX_FACTOR

/-- `net_company` local of `get_net_company`: net income of the company,
before the dividend tax. -/
def net_company (args : Args) (gross : ℚ) : ℚ :=
  gross - company_soc_sec args - company_income_tax args gross - FIXED_EXPENSES_COMPANY

/-- `get_net_company`: net income of the individual extracting the company's
profit as dividends. -/
def get_net_company (args : Args) (gross : ℚ) : ℚ :=
  net_company args gross * (1 - DIVIDEND_TAX_FACTOR)

/-- `soc_sec_base` local of `get_net_individual`: the gross income, capped at
`args.socsec_base_max`. -/
def indiv_soc_sec_base (args : Args) (gross : ℚ) : ℚ :=
  if gross > args.socsec_base_max then args.socsec_base_max else gross

/-- `soc_sec` local of `get_net_individual`. -/
def indiv_soc_sec (args : Args) (gross : ℚ) : ℚ :=
  indiv_soc_sec_base args gross * soc_sec_factor args

/-- `income_tax_base` local of `get_net_individual`. -/
def indiv_income_tax_base (args : Args) (gross : ℚ) : ℚ :=
  gross * (1 - RECOGNIZED_EXPENSES_INDIVIDUAL) - indiv_soc_sec args gross

/-- `income_tax` local of `get_net_individual`. -/
def indiv_income_tax (args : Args) (gross : ℚ) : ℚ :=
  indiv_income_tax_base args gross * INCOME_TAX_FACTOR

/-- `get_net_individual`: net income of a self-employed individual. -/
def get_net_individual (args : Args) (gross : ℚ) : ℚ :=
  gross - indiv_soc_sec args gross - indiv_income_tax args gross - FIXED_EXPENSES_INDIVIDUAL

/-- `np.linspace(a, b, n)`: `n` evenly spaced values from `a` to `b`
inclusive, sample `i` being `a + (b - a) * i / (n - 1)`. -/
def linspace (a b : ℚ) (n : ℕ) : List ℚ :=
  (List.range n).map (fun i : ℕ => a + (b - a) * (i : ℚ) / ((n : ℚ) - 1))

/-- The `x` sample list of `plot_func`: `np.linspace(x[0], x[1], 200)`. -/
def plot_func_x (grossMin grossMax : ℚ) : List ℚ :=
  linspace grossMin grossMax 200

/-- The `y_company` series of `plot_func`: burden fraction for the company
path at each sampled gross value. -/
def y_company (args : Args) (grossMin grossMax : ℚ) : List ℚ :=
  (plot_func_x grossMin grossMax).map (fun gross => 1 - get_net_company args gross / gross)

/-- The `y_individual` series of `plot_func`: burden fraction for the
individual path at each sampled gross value. -/
def y_individual (args : Args) (grossMin grossMax : ℚ) : List ℚ :=
  (plot_func_x grossMin grossMax).map (fun gross => 1 - get_net_individual args gross / gross)

/-- Rounding to two decimal places (round half away from zero is irrelevant
here; we use the standard `round`, i.e. half-up). -/
def round2 (x : ℚ) : ℚ := (round (x * 100) : ℤ) / 100

/-- C1: for every gross income and parameter set, `get_net_company` is
`(gross - socSec - incomeTax - 165) * (1 - 0.05)` with
`socSec = socSecBaseMin * soc_sec_factor` (minimum base regardless of gross)
and `incomeTax = 0.10 * (gross - 165 - socSec)`; no clamping anywhere. -/
theorem net_company_formula (args : Args) (gross : ℚ) :
    get_net_company args gross =
      (gross - args.socsec_base_min * soc_sec_factor args
        - 0.10 * (gross - 165 - args.socsec_base_min * soc_sec_factor args)
        - 165) * (1 - 0.05) := by
  unfold get_net_company net_company company_income_tax company_income_tax_base
    company_soc_sec FIXED_EXPENSES_COMPANY INCOME_TAX_FACTOR DIVIDEND_TAX_FACTOR
  norm_num
  ring

/-- C2: for every gross income and parameter set, `get_net_individual` is
`gross - socSec - incomeTax - 155` with
`socSec = min(gross, socSecBaseMax) * soc_sec_factor` and
`incomeTax = 0.10 * (gross * (1 - 0.25) - socSec)`. -/
theorem net_individual_formula (args : Args) (gross : ℚ) :
    get_net_individual args gross =
      gross - min gross args.socsec_base_max * soc_sec_factor args
        - 0.10 * (gross * (1 - 0.25)
            - min gross args.socsec_base_max * soc_sec_factor args)
        - 155 := by
  unfold get_net_individual indiv_income_tax indiv_income_tax_base indiv_soc_sec
    indiv_soc_sec_base FIXED_EXPENSES_INDIVIDUAL INCOME_TAX_FACTOR
    RECOGNIZED_EXPENSES_INDIVIDUAL
  rcases le_or_lt gross args.socsec_base_max with h | h
  · rw [if_neg (not_lt.mpr h), min_eq_left h]
    norm_num
    ring
  · rw [if_pos h, min_eq_right h.le]
    norm_num
    ring

/-- C7: `soc_sec_factor` with the citizen flag set equals the non-citizen
value plus exactly `0.08`, and the non-citizen value is `0.148 + 0.05`. -/
theorem soc_sec_factor_citizen_health (mn mx : ℚ) :
    soc_sec_factor ⟨mn, mx, true⟩ = soc_sec_factor ⟨mn, mx, false⟩ + 0.08 ∧
    soc_sec_factor ⟨mn, mx, false⟩ = 0.148 + 0.05 := by
  constructor <;>
    simp [soc_sec_factor, SOCIAL_SECURITY_FACTOR_MAIN, SOCIAL_SECURITY_FACTOR_HEALTH]

/-- The factor is positive for either value of the citizen flag. -/
theorem soc_sec_factor_pos (args : Args) : 0 < soc_sec_factor args := by
  cases hc : args.citizen <;>
    simp [soc_sec_factor, hc, SOCIAL_SECURITY_FACTOR_MAIN,
      SOCIAL_SECURITY_FACTOR_HEALTH] <;> norm_num

/-- At the concrete scenario, the final net is exactly `603.8865`. -/
theorem company_scenario_net_value :
    get_net_company ⟨650, 3000, false⟩ 1000 = 603.8865 := by
  norm_num [get_net_company, net_company, company_income_tax, company_income_tax_base,
    company_soc_sec, soc_sec_factor, SOCIAL_SECURITY_FACTOR_MAIN,
    FIXED_EXPENSES_COMPANY, INCOME_TAX_FACTOR, DIVIDEND_TAX_FACTOR]

/-- At the concrete scenario, the final net rounds to `603.89`. -/
theorem company_scenario_round2_value :
    round2 (get_net_company ⟨650, 3000, false⟩ 1000) = 603.89 := by
  have hr : round ((603.8865 : ℚ) * 100) = 60389 := by
    rw [round_eq]
    rw [show ((603.8865 : ℚ) * 100 + 1 / 2) = 60389.15 by norm_num]
    rw [Int.floor_eq_iff] <;> norm_num
  unfold round2
  rw [company_scenario_net_value, hr]
  norm_num

/-- The factor is `0.198` for non-citizens and `0.278` for citizens. -/
theorem soc_sec_factor_cases (args : Args) :
    soc_sec_factor args = 0.198 ∨ soc_sec_factor args = 0.278 := by
  cases hc : args.citizen
  · left
    norm_num [soc_sec_factor, hc, SOCIAL_SECURITY_FACTOR_MAIN]
  · right
    norm_num [soc_sec_factor, hc, SOCIAL_SECURITY_FACTOR_MAIN,
      SOCIAL_SECURITY_FACTOR_HEALTH]

/-- C3 counterexample: at `socSecBaseMin = 650`, `socSecBaseMax = 3000`,
`citizen = false`, `gross = 1000`, the final individual-equivalent net is
`635.67 * 0.95 = 603.8865`, which rounds to `603.89`, not `603.99` as the
claim states. -/
theorem company_scenario_net_ne_60399 :
    get_net_company ⟨650, 3000, false⟩ 1000 = 603.8865 ∧
    round2 (get_net_company ⟨650, 3000, false⟩ 1000) ≠ 603.99 := by
  refine ⟨company_scenario_net_value, ?_⟩
  rw [company_scenario_round2_value]
  norm_num

/-- C3 amended: at `socSecBaseMin = 650`, `socSecBaseMax = 3000`,
`citizen = false`, `gross = 1000`, the company path yields social security
`128.7`, income-tax base `706.3`, income tax `70.63`, company net `635.67`,
and a final individual-equivalent net of `603.89` when rounded to 2
decimals. -/
theorem company_scenario_values :
    company_soc_sec ⟨650, 3000, false⟩ = 128.7 ∧
    company_income_tax_base ⟨650, 3000, false⟩ 1000 = 706.3 ∧
    company_income_tax ⟨650, 3000, false⟩ 1000 = 70.63 ∧
    net_company ⟨650, 3000, false⟩ 1000 = 635.67 ∧
    round2 (get_net_company ⟨650, 3000, false⟩ 1000) = 603.89 := by
  refine ⟨?_, ?_, ?_, ?_, company_scenario_round2_value⟩ <;>
    norm_num [net_company, company_income_tax, company_income_tax_base,
      company_soc_sec, soc_sec_factor, SOCIAL_SECURITY_FACTOR_MAIN,
      FIXED_EXPENSES_COMPANY, INCOME_TAX_FACTOR]

/-- The sample list always has exactly 200 entries. -/
theorem plot_func_x_length (a b : ℚ) : (plot_func_x a b).length = 200 := by
  unfold plot_func_x linspace
  rw [List.length_map, List.length_range]

/-- Closed form of the `i`-th sample: `a + (b - a) * i / 199`. -/
theorem plot_func_x_get (a b : ℚ) (i : Fin (plot_func_x a b).length) :
    (plot_func_x a b).get i = a + (b - a) * (i.val : ℚ) / 199 := by
  rcases i with ⟨i, hi⟩
  simp only [plot_func_x, linspace, List.get_eq_getElem, List.getElem_map,
    List.getElem_range]
  norm_num

/-- C4: for `grossMin < grossMax`, the sample list has exactly 200 evenly
spaced points, starts at `grossMin`, ends at `grossMax`, and is strictly
increasing from each point to the next. -/
theorem plot_func_x_samples (a b : ℚ) (h : a < b) :
    (plot_func_x a b).length = 200 ∧
    (plot_func_x a b)[0]? = some a ∧
    (plot_func_x a b)[199]? = some b ∧
    List.Chain' (fun u v => u < v) (plot_func_x a b) := by
  refine ⟨plot_func_x_length a b, ?_, ?_, ?_⟩
  · unfold plot_func_x linspace
    rw [List.getElem?_map, List.getElem?_range (by norm_num : (0 : ℕ) < 200)]
    simp
  · unfold plot_func_x linspace
    rw [List.getElem?_map, List.getElem?_range (by norm_num : (199 : ℕ) < 200)]
    simp only [Option.map_some']
    norm_num
  · rw [List.chain'_iff_get]
    intro i hi
    rw [plot_func_x_get, plot_func_x_get]
    have hba : (0 : ℚ) < b - a := sub_pos.mpr h
    have hstep : (b - a) * (i : ℚ) < (b - a) * ((i : ℚ) + 1) := by nlinarith
    have hdiv : (b - a) * (i : ℚ) / 199 < (b - a) * ((i : ℚ) + 1) / 199 :=
      (div_lt_div_iff_of_pos_right (by norm_num)).mpr hstep
    push_cast
    linarith

/-- C5: each stored series value is the burden fraction
`1 - netIncome(gross) / gross` at the corresponding sampled gross value,
using `get_net_company` for the company series and `get_net_individual` for
the individual series. -/
theorem series_burden_values (args : Args) (a b : ℚ) (i : ℕ) :
    (y_company args a b)[i]? =
      ((plot_func_x a b)[i]?).map (fun gross => 1 - get_net_company args gross / gross) ∧
    (y_individual args a b)[i]? =
      ((plot_func_x a b)[i]?).map (fun gross => 1 - get_net_individual args gross / gross) := by
  constructor <;> simp [y_company, y_individual]

/-- C6: the individual path's social-security contribution
`min(gross, socSecBaseMax) * soc_sec_factor` is non-decreasing in gross up to
`socSecBaseMax`, and constantly `socSecBaseMax * soc_sec_factor` for all
`gross ≥ socSecBaseMax`. -/
theorem indiv_soc_sec_monotone_then_constant (args : Args)
    (h : 0 ≤ args.socsec_base_max) :
    (∀ g1 g2 : ℚ, g1 ≤ g2 → g2 ≤ args.socsec_base_max →
      indiv_soc_sec args g1 ≤ indiv_soc_sec args g2) ∧
    (∀ g : ℚ, args.socsec_base_max ≤ g →
      indiv_soc_sec args g = args.socsec_base_max * soc_sec_factor args) := by
  constructor
  · intro g1 g2 h12 h2max
    unfold indiv_soc_sec indiv_soc_sec_base
    rw [if_neg (not_lt.mpr (le_trans h12 h2max)), if_neg (not_lt.mpr h2max)]
    exact mul_le_mul_of_nonneg_right h12 (soc_sec_factor_pos args).le
  · intro g hg
    unfold indiv_soc_sec indiv_soc_sec_base
    rcases eq_or_lt_of_le hg with heq | hlt
    · rw [if_neg (by rw [heq]; exact lt_irrefl g), ← heq]
    · rw [if_pos hlt]

/-- Witness for C6 at `socSecBaseMax = 3000`. -/
theorem indiv_soc_sec_monotone_then_constant_witness :
    (0 : ℚ) ≤ Args.socsec_base_max ⟨650, 3000, false⟩ ∧
    ((∀ g1 g2 : ℚ, g1 ≤ g2 → g2 ≤ Args.socsec_base_max ⟨650, 3000, false⟩ →
        indiv_soc_sec ⟨650, 3000, false⟩ g1 ≤ indiv_soc_sec ⟨650, 3000, false⟩ g2) ∧
      (∀ g : ℚ, Args.socsec_base_max ⟨650, 3000, false⟩ ≤ g →
        indiv_soc_sec ⟨650, 3000, false⟩ g =
          Args.socsec_base_max ⟨650, 3000, false⟩ * soc_sec_factor ⟨650, 3000, false⟩)) :=
  ⟨by decide, indiv_soc_sec_monotone_then_constant ⟨650, 3000, false⟩ (by decide)⟩

/-- C8: for positive gross and non-negative minimum base, the company-path
net never exceeds the gross, equivalently the plotted company burden
fraction is non-negative. -/
theorem net_company_le_gross (args : Args) (gross : ℚ)
    (hg : 0 < gross) (hmin : 0 ≤ args.socsec_base_min) :
    get_net_company args gross ≤ gross ∧
    0 ≤ 1 - get_net_company args gross / gross := by
  have hle : get_net_company args gross ≤ gross := by
    unfold get_net_company net_company company_income_tax company_income_tax_base
      company_soc_sec FIXED_EXPENSES_COMPANY INCOME_TAX_FACTOR DIVIDEND_TAX_FACTOR
    rcases soc_sec_factor_cases args with hf | hf <;> rw [hf] <;> nlinarith
  have hdiv : get_net_company args gross / gross ≤ 1 := (div_le_one hg).mpr hle
  exact ⟨hle, by linarith⟩

/-- Witness for C8 at the scenario parameters and `gross = 1000`. -/
theorem net_company_le_gross_witness :
    (0 : ℚ) < 1000 ∧ 0 ≤ Args.socsec_base_min ⟨650, 3000, false⟩ ∧
    (get_net_company ⟨650, 3000, false⟩ 1000 ≤ 1000 ∧
      0 ≤ 1 - get_net_company ⟨650, 3000, false⟩ 1000 / 1000) :=
  ⟨by decide, by decide, net_company_le_gross ⟨650, 3000, false⟩ 1000 (by decide) (by decide)⟩

/-- C9: `get_net_company` does not read `socSecBaseMax`, and
`get_net_individual` does not read `socSecBaseMin`: parameter sets agreeing
on the other two fields give identical results for every gross. -/
theorem params_noninterference (p1 p2 q1 q2 : Args)
    (hmin : p1.socsec_base_min = p2.socsec_base_min) (hc1 : p1.citizen = p2.citizen)
    (hmax : q1.socsec_base_max = q2.socsec_base_max) (hc2 : q1.citizen = q2.citizen) :
    (∀ g : ℚ, get_net_company p1 g = get_net_company p2 g) ∧
    (∀ g : ℚ, get_net_individual q1 g = get_net_individual q2 g) := by
  constructor <;> intro g <;>
    simp [get_net_company, net_company, company_income_tax, company_income_tax_base,
      company_soc_sec, get_net_individual, indiv_income_tax, indiv_income_tax_base,
      indiv_soc_sec, indiv_soc_sec_base, soc_sec_factor, hmin, hc1, hmax, hc2]

/-- Witness for C9: vary `socSecBaseMax` for the company path and
`socSecBaseMin` for the individual path. -/
theorem params_noninterference_witness :
    Args.socsec_base_min ⟨650, 3000, false⟩ = Args.socsec_base_min ⟨650, 9999, false⟩ ∧
    Args.citizen ⟨650, 3000, false⟩ = Args.citizen ⟨650, 9999, false⟩ ∧
    Args.socsec_base_max ⟨650, 3000, false⟩ = Args.socsec_base_max ⟨1, 3000, false⟩ ∧
    Args.citizen ⟨650, 3000, false⟩ = Args.citizen ⟨1, 3000, false⟩ ∧
    ((∀ g : ℚ, get_net_company ⟨650, 3000, false⟩ g = get_net_company ⟨650, 9999, false⟩ g) ∧
      (∀ g : ℚ, get_net_individual ⟨650, 3000, false⟩ g = get_net_individual ⟨1, 3000, false⟩ g)) :=
  ⟨rfl, rfl, rfl, rfl,
    params_noninterference ⟨650, 3000, false⟩ ⟨650, 9999, false⟩
      ⟨650, 3000, false⟩ ⟨1, 3000, false⟩ rfl rfl rfl rfl⟩

/-- C10: for every parameter set with non-negative maximum base and either
citizen flag, `get_net_individual` is strictly increasing in gross. -/
theorem net_individual_strict_mono (args : Args) (h : 0 ≤ args.socsec_base_max)
    (g1 g2 : ℚ) (h12 : g1 < g2) :
    get_net_individual args g1 < get_net_individual args g2 := by
  unfold get_net_individual indiv_income_tax indiv_income_tax_base indiv_soc_sec
    indiv_soc_sec_base FIXED_EXPENSES_INDIVIDUAL INCOME_TAX_FACTOR
    RECOGNIZED_EXPENSES_INDIVIDUAL
  cases hc : args.citizen <;>
    simp only [soc_sec_factor, hc, SOCIAL_SECURITY_FACTOR_MAIN,
      SOCIAL_SECURITY_FACTOR_HEALTH, if_true, if_false] <;>
    split_ifs with h1 h2 <;> norm_num <;> nlinarith

/-- Witness for C10 at the scenario parameters and `500 < 1000`. -/
theorem net_individual_strict_mono_witness :
    (0 : ℚ) ≤ Args.socsec_base_max ⟨650, 3000, false⟩ ∧ (500 : ℚ) < 1000 ∧
    get_net_individual ⟨650, 3000, false⟩ 500 < get_net_individual ⟨650, 3000, false⟩ 1000 :=
  ⟨by decide, by decide,
    net_individual_strict_mono ⟨650, 3000, false⟩ (by decide) 500 1000 (by decide)⟩

/-- Witness for C4 at the default chart range `500 < 25000`. -/
theorem plot_func_x_samples_witness :
    (500 : ℚ) < 25000 ∧
    ((plot_func_x 500 25000).length = 200 ∧
      (plot_func_x 500 25000)[0]? = some 500 ∧
      (plot_func_x 500 25000)[199]? = some 25000 ∧
      List.Chain' (fun u v => u < v) (plot_func_x 500 25000)) :=
  ⟨by decide, plot_func_x_samples 500 25000 (by decide)⟩
